import Mathlib

/-!
Shallow embedding of the Knicks seat selector repository.

The embedding covers:
* `KnicksSeatSelector` (seatSelector.js): the MSG seating map, `scoreSection`,
  `findBestSeats`;
* `RecommendationScheduler.runRecommendations` (scheduler.js): the per-event
  scored/sorted/truncated recommendation list, with `getSectionType`;
* `EmailService.generateEmailHTML` (emailService.js): the top-3 display cut;
* `MatchupScheduler.runMatchupRecommendations` / `logSummary` (the matchup
  variant): excitement defaulting, preferred-opponent boost, bands.

Money and scores are rationals (`ℚ`); JavaScript `undefined`/`NaN` propagation
for a missing price field is modelled separately with `Option ℚ` (`none` plays
the role of `undefined`/`NaN`).
-/

/-- The four elevation classes of the MSG seating map. -/
inductive Elevation where
  | courtside
  | lower
  | bridge
  | upper
deriving DecidableEq, Repr

/-- The fixed elevation ranking used by `scoreSection`:
`courtside(4) > lower(3) > bridge(2) > upper(1)`. -/
def elevationScore : Elevation → ℕ
  | .courtside => 4
  | .lower => 3
  | .bridge => 2
  | .upper => 1

/-- One tier of the MSG seating map (`getMSGSeatingMap` in seatSelector.js).
`center`/`corners` are optional, as in the source, where the `courtside`
entry has no `center` or `corners` field. -/
structure SectionType where
  sections : List String
  priceRange : ℚ × ℚ
  elevation : Elevation
  center : Option (List String) := none
  corners : Option (List String) := none
deriving DecidableEq, Repr

/-- The `courtside` tier. -/
def courtside : SectionType :=
  { sections := ["Floor A", "Floor B", "Floor C", "Floor D"]
    priceRange := (800, 3000)
    elevation := .courtside }

/-- The `lower100s` tier: sections '101'..'127'. -/
def lower100s : SectionType :=
  { sections := ["101", "102", "103", "104", "105", "106", "107", "108", "109",
                 "110", "111", "112", "113", "114", "115", "116", "117", "118",
                 "119", "120", "121", "122", "123", "124", "125", "126", "127"]
    priceRange := (200, 800)
    elevation := .lower
    center := some ["107", "108", "109", "110", "111", "112", "113", "114",
                    "115", "116"]
    corners := some ["101", "102", "103", "125", "126", "127"] }

/-- The `bridge` tier: sections '1'..'9'. -/
def bridge : SectionType :=
  { sections := ["1", "2", "3", "4", "5", "6", "7", "8", "9"]
    priceRange := (150, 400)
    elevation := .bridge
    center := some ["4", "5", "6"] }

/-- The `upper200s` tier: sections '201'..'231'. -/
def upper200s : SectionType :=
  { sections := ["201", "202", "203", "204", "205", "206", "207", "208", "209",
                 "210", "211", "212", "213", "214", "215", "216", "217", "218",
                 "219", "220", "221", "222", "223", "224", "225", "226", "227",
                 "228", "229", "230", "231"]
    priceRange := (50, 200)
    elevation := .upper
    center := some ["210", "211", "212", "213", "214", "215", "216", "217"]
    corners := some ["201", "202", "203", "229", "230", "231"] }

/-- `getMSGSeatingMap`, in `Object.entries` insertion order. -/
def getMSGSeatingMap : List (String × SectionType) :=
  [("courtside", courtside), ("lower100s", lower100s), ("bridge", bridge),
   ("upper200s", upper200s)]

/-- `RecommendationScheduler.getSectionType` (also the inline tier scan of
`findBestSeats`): first tier whose `sections` list contains the section. -/
def getSectionType (sec : String) : Option SectionType :=
  (getMSGSeatingMap.find? (fun ti => ti.2.sections.contains sec)).map (·.2)

/-- `preferences.budget` from preferences.yaml. -/
structure Budget where
  min_per_seat : ℚ
  max_per_seat : ℚ
  total_max : ℚ
deriving DecidableEq, Repr

/-- `preferences.location` from preferences.yaml. -/
structure LocationPrefs where
  max_row : ℤ
  together : Bool
  aisle_seats : Bool
deriving DecidableEq, Repr

/-- `preferences.view` from preferences.yaml. -/
structure ViewPrefs where
  min_elevation : Elevation
  avoid_corners : Bool
deriving DecidableEq, Repr

/-- The preference profile (`this.preferences.preferences`). -/
structure Preferences where
  budget : Budget
  location : LocationPrefs
  view : ViewPrefs
deriving DecidableEq, Repr

/-- A candidate listing as consumed by the selector:
`{ section, row, seats: [number], price, isAisle }`. -/
structure Seat where
  «section» : String
  row : ℤ
  seats : List ℤ
  price : ℚ
  isAisle : Bool
deriving DecidableEq, Repr

/-- `KnicksSeatSelector.scoreSection(section, seatInfo, sectionType)`.

Mirrors the source line by line: the price gate, the elevation gate, base 100,
`+30` center, `-40` corner when `avoid_corners`, `+20` row (JavaScript
truthiness of `seatInfo.row` is `row ≠ 0`), `+15` aisle, and the continuous
`(1 - price/max_per_seat) * 20` value bonus. -/
def scoreSection (prefs : Preferences) (sec : String) (seatInfo : Seat)
    (sectionType : SectionType) : ℚ :=
  if seatInfo.price > prefs.budget.max_per_seat ∨
     seatInfo.price < prefs.budget.min_per_seat then 0
  else if elevationScore sectionType.elevation <
          elevationScore prefs.view.min_elevation then 0
  else
    let s1 : ℚ := 100
    let s2 := if sec ∈ (sectionType.center.getD []) then s1 + 30 else s1
    let s3 := if prefs.view.avoid_corners = true ∧
                 sec ∈ (sectionType.corners.getD []) then s2 - 40 else s2
    let s4 := if seatInfo.row ≠ 0 ∧ seatInfo.row ≤ prefs.location.max_row
              then s3 + 20 else s3
    let s5 := if prefs.location.aisle_seats = true ∧ seatInfo.isAisle = true
              then s4 + 15 else s4
    s5 + (1 - seatInfo.price / prefs.budget.max_per_seat) * 20

/-- A scored recommendation: the listing spread together with
`score`, `totalCost` and `elevation`. -/
structure Scored where
  seat : Seat
  score : ℚ
  totalCost : ℚ
  elevation : Elevation
deriving DecidableEq, Repr

/-- The loop body of `findBestSeats` up to the score comparison: the
togetherness pre-filter, the total-budget pre-filter, the tier scan, and the
construction of the scored candidate. `none` means the listing was skipped
(`continue`) before scoring. -/
def surviveScore (prefs : Preferences) (seatOption : Seat) : Option Scored :=
  if prefs.location.together = true ∧ seatOption.seats.length < 2 then none
  else if seatOption.price * seatOption.seats.length > prefs.budget.total_max
  then none
  else
    match getSectionType seatOption.«section» with
    | none => none
    | some sectionType =>
      some { seat := seatOption
             score := scoreSection prefs seatOption.«section» seatOption
                        sectionType
             totalCost := seatOption.price * seatOption.seats.length
             elevation := sectionType.elevation }

/-- One iteration of the `findBestSeats` loop: state is
`(bestOption, bestScore)`, updated only on a strictly greater score. -/
def fbsStep (prefs : Preferences) (st : Option Scored × ℚ) (seatOption : Seat) :
    Option Scored × ℚ :=
  match surviveScore prefs seatOption with
  | none => st
  | some r => if st.2 < r.score then (some r, r.score) else st

/-- `KnicksSeatSelector.findBestSeats(availableSeats)`: fold of the loop with
`bestOption = null`, `bestScore = 0`. -/
def findBestSeats (prefs : Preferences) (availableSeats : List Seat) :
    Option Scored :=
  (availableSeats.foldl (fbsStep prefs) (none, 0)).1

/-- The listings of `availableSeats` that survive the `findBestSeats`
pre-filters and tier scan, scored, in input order. -/
def scoredSurvivors (prefs : Preferences) (availableSeats : List Seat) :
    List Scored :=
  availableSeats.filterMap (surviveScore prefs)

/-- The `map` body of the scheduler's `allScored` pipeline
(`RecommendationScheduler.runRecommendations`): classify the section, score,
and drop the ticket when the section is unknown or the score is `0`. -/
def scoreTicket (prefs : Preferences) (ticket : Seat) : Option Scored :=
  match getSectionType ticket.«section» with
  | none => none
  | some sectionType =>
    let score := scoreSection prefs ticket.«section» ticket sectionType
    if score = 0 then none
    else some { seat := ticket
                score := score
                totalCost := ticket.price * ticket.seats.length
                elevation := sectionType.elevation }

/-- Stable insertion of a scored ticket into a descending list: the new
element goes after every existing element of greater-or-equal score.  This is
the behaviour of the ECMAScript (2019+) stable `Array.prototype.sort` with
comparator `(a, b) => b.score - a.score`. -/
def insertDesc (x : Scored) : List Scored → List Scored
  | [] => [x]
  | y :: ys => if y.score < x.score then x :: y :: ys else y :: insertDesc x ys

/-- Stable descending sort by score, processing the input left to right. -/
def sortDesc (l : List Scored) : List Scored :=
  l.foldl (fun acc x => insertDesc x acc) []

/-- The scheduler's `allScored` list for one event: score every ticket, drop
the unscoreable ones, and stable-sort by score descending. -/
def allScored (prefs : Preferences) (tickets : List Seat) : List Scored :=
  sortDesc (tickets.filterMap (scoreTicket prefs))

/-- The per-event recommendation produced by
`RecommendationScheduler.runRecommendations`: present exactly when
`findBestSeats` is non-null and `allScored` is non-empty, and equal to
`allScored.slice(0, 5)`. -/
def eventBestSeats (prefs : Preferences) (tickets : List Seat) :
    Option (List Scored) :=
  match findBestSeats prefs tickets with
  | none => none
  | some _ =>
    let scored := allScored prefs tickets
    if 0 < scored.length then some (scored.take 5) else none

/-- `EmailService.generateEmailHTML`: the displayed seats are
`rec.bestSeats.slice(0, 3)`. -/
def emailTopSeats (bestSeats : List Scored) : List Scored :=
  bestSeats.take 3

/-! ### JavaScript `undefined`/`NaN` semantics for a missing price

`SeatJS` is a listing whose `price` field may be absent (`none` models
JavaScript `undefined`; arithmetic on it models `NaN`). -/

/-- A listing whose required numeric `price` field may be missing. -/
structure SeatJS where
  «section» : String
  row : ℤ
  seats : List ℤ
  price : Option ℚ
  isAisle : Bool
deriving DecidableEq, Repr

/-- JavaScript `>` on a possibly-`undefined` left operand:
`undefined > b` is `false`. -/
def jsGtQ : Option ℚ → ℚ → Bool
  | none, _ => false
  | some a, b => decide (a > b)

/-- JavaScript `<` on a possibly-`undefined` left operand:
`undefined < b` is `false`. -/
def jsLtQ : Option ℚ → ℚ → Bool
  | none, _ => false
  | some a, b => decide (a < b)

/-- A scored recommendation whose `score`/`totalCost` may be `NaN` (`none`). -/
structure ScoredJS where
  seat : SeatJS
  score : Option ℚ
  totalCost : Option ℚ
  elevation : Elevation
deriving DecidableEq, Repr

/-- `scoreSection` under JavaScript semantics when the listing's `price` may
be missing: comparisons against `undefined` are `false` (so the price gate
does not fire), and the final `+ (1 - price/max) * 20` contaminates the sum
with `NaN` (`none`). -/
def scoreSectionJS (prefs : Preferences) (sec : String) (seatInfo : SeatJS)
    (sectionType : SectionType) : Option ℚ :=
  if jsGtQ seatInfo.price prefs.budget.max_per_seat = true ∨
     jsLtQ seatInfo.price prefs.budget.min_per_seat = true then some 0
  else if elevationScore sectionType.elevation <
          elevationScore prefs.view.min_elevation then some 0
  else
    let s1 : ℚ := 100
    let s2 := if sec ∈ (sectionType.center.getD []) then s1 + 30 else s1
    let s3 := if prefs.view.avoid_corners = true ∧
                 sec ∈ (sectionType.corners.getD []) then s2 - 40 else s2
    let s4 := if seatInfo.row ≠ 0 ∧ seatInfo.row ≤ prefs.location.max_row
              then s3 + 20 else s3
    let s5 := if prefs.location.aisle_seats = true ∧ seatInfo.isAisle = true
              then s4 + 15 else s4
    seatInfo.price.map
      (fun p => s5 + (1 - p / prefs.budget.max_per_seat) * 20)

/-- The scheduler's `map` body under JavaScript semantics: the
`if (score === 0) return null` filter keeps a `NaN` score, because
`NaN === 0` is `false`. -/
def scoreTicketJS (prefs : Preferences) (ticket : SeatJS) : Option ScoredJS :=
  match getSectionType ticket.«section» with
  | none => none
  | some sectionType =>
    let score := scoreSectionJS prefs ticket.«section» ticket sectionType
    if score = some 0 then none
    else some { seat := ticket
                score := score
                totalCost := ticket.price.map
                  (fun p => p * ticket.seats.length)
                elevation := sectionType.elevation }

/-! ### Matchup variant (`MatchupScheduler.runMatchupRecommendations`) -/

/-- External team data; `excitement` may itself be absent. -/
structure TeamInfo where
  excitement : Option ℤ
deriving DecidableEq, Repr

/-- `opponentInfo?.excitement || 5`: `5` when the external source has no data
for the opponent, no `excitement` field, or a falsy (`0`) value. -/
def baseExcitement (opponentInfo : Option TeamInfo) : ℤ :=
  match opponentInfo with
  | none => 5
  | some info =>
    match info.excitement with
    | none => 5
    | some e => if e = 0 then 5 else e

/-- A rated game as pushed onto `gamesWithRatings`; the stored
`opponentInfo` is the unmodified external record. -/
structure RatedGame where
  excitement : ℤ
  isPreferred : Bool
  opponentInfo : Option TeamInfo
deriving DecidableEq, Repr

/-- The rating step of `runMatchupRecommendations`:
`adjustedExcitement = isPreferred ? Math.min(excitement + 1, 10) : excitement`. -/
def rateGame (opponentInfo : Option TeamInfo) (isPreferred : Bool) :
    RatedGame :=
  let excitement := baseExcitement opponentInfo
  let adjustedExcitement :=
    if isPreferred = true then min (excitement + 1) 10 else excitement
  { excitement := adjustedExcitement
    isPreferred := isPreferred
    opponentInfo := opponentInfo }

/-- Re-running the rater on a previously rated game's stored data: the boost
is recomputed from the stored base, never from the adjusted value. -/
def reRate (g : RatedGame) : RatedGame :=
  rateGame g.opponentInfo g.isPreferred

/-- The "standard" presentation band of `MatchupScheduler.logSummary`:
`games.filter(g => g.excitement < 6)`. -/
def standardGames (games : List RatedGame) : List RatedGame :=
  games.filter (fun g => decide (g.excitement < 6))

/-! ### Concrete data for the end-to-end scenarios -/

/-- The scenario-A profile:
`{minPerSeat:200, maxPerSeat:400, totalMax:600, maxRow:20,
togetherRequired:true, avoidCorners:true, minElevation:lower}`. -/
def profileA : Preferences :=
  { budget := { min_per_seat := 200, max_per_seat := 400, total_max := 600 }
    location := { max_row := 20, together := true, aisle_seats := false }
    view := { min_elevation := .lower, avoid_corners := true } }

/-- Scenario-A listing `{section:"109", row:8, seats:[5,6], price:295}`. -/
def seatA : Seat :=
  { «section» := "109", row := 8, seats := [5, 6], price := 295,
    isAisle := false }

/-- Scenario-B listing `{section:"5", row:3, seats:[8,9], price:250}`. -/
def seatB : Seat :=
  { «section» := "5", row := 3, seats := [8, 9], price := 250,
    isAisle := false }

/-- A two-seat lower-tier listing that passes every filter of
`findBestSeats` (score `621/4`, total cost `590`). -/
def ticket1 : Seat :=
  { «section» := "110", row := 8, seats := [5, 6], price := 295,
    isAisle := false }

/-- A one-seat listing (violates the togetherness pre-filter) with a
positive score `621/4`. -/
def ticket2 : Seat :=
  { «section» := "111", row := 8, seats := [7], price := 295,
    isAisle := false }

/-- A two-seat listing whose total cost `700` exceeds `total_max = 600`
while its per-seat price `350` passes the per-seat gate; score `305/2`. -/
def ticket3 : Seat :=
  { «section» := "112", row := 8, seats := [3, 4], price := 350,
    isAisle := false }

/-- The example ticket batch for one event. -/
def exTickets : List Seat := [ticket1, ticket2, ticket3]

/-- `ticket1` scored by the scheduler pipeline. -/
def scored1 : Scored :=
  { seat := ticket1, score := 621 / 4, totalCost := 590, elevation := .lower }

/-- `ticket2` scored by the scheduler pipeline. -/
def scored2 : Scored :=
  { seat := ticket2, score := 621 / 4, totalCost := 295, elevation := .lower }

/-- `ticket3` scored by the scheduler pipeline. -/
def scored3 : Scored :=
  { seat := ticket3, score := 305 / 2, totalCost := 700, elevation := .lower }

/-- The scenario-A listing with its required numeric `price` field missing
(JavaScript `undefined`). -/
def seatAJS : SeatJS :=
  { «section» := "109", row := 8, seats := [5, 6], price := none,
    isAisle := false }

/-- The scenario-A listing with a hard-rejected price of `450 > 400`. -/
def seat450 : Seat :=
  { «section» := "109", row := 8, seats := [5, 6], price := 450,
    isAisle := false }

/-- `seat450` with the `SeatJS` field layout. -/
def seat450JS : SeatJS :=
  { «section» := "109", row := 8, seats := [5, 6], price := some 450,
    isAisle := false }

/-! ### Helper lemmas: the stable descending sort -/

/-- The listings of score `s`, in order (used to state sort stability). -/
def scoreFilter (s : ℚ) (l : List Scored) : List Scored :=
  l.filter (fun r => decide (r.score = s))

theorem mem_insertDesc (x z : Scored) (l : List Scored) :
    z ∈ insertDesc x l ↔ z = x ∨ z ∈ l := by
  induction l with
  | nil => simp [insertDesc]
  | cons y ys ih =>
    unfold insertDesc
    by_cases h : y.score < x.score
    · simp [h]
    · simp only [if_neg h, List.mem_cons, ih]
      tauto

theorem insertDesc_pairwise (x : Scored) (l : List Scored)
    (hl : l.Pairwise (fun a b => b.score ≤ a.score)) :
    (insertDesc x l).Pairwise (fun a b => b.score ≤ a.score) := by
  induction l with
  | nil => simp [insertDesc]
  | cons y ys ih =>
    rw [List.pairwise_cons] at hl
    obtain ⟨hy, hys⟩ := hl
    unfold insertDesc
    by_cases h : y.score < x.score
    · rw [if_pos h]
      refine List.Pairwise.cons ?_ (List.Pairwise.cons hy hys)
      intro z hz
      rcases List.mem_cons.mp hz with rfl | hz'
      · exact le_of_lt h
      · exact le_trans (hy z hz') (le_of_lt h)
    · rw [if_neg h]
      refine List.Pairwise.cons ?_ (ih hys)
      intro z hz
      rcases (mem_insertDesc x z ys).mp hz with rfl | hz'
      · exact not_lt.mp h
      · exact hy z hz'

theorem insertDesc_scoreFilter (s : ℚ) (x : Scored) (l : List Scored)
    (hl : l.Pairwise (fun a b => b.score ≤ a.score)) :
    scoreFilter s (insertDesc x l) =
      scoreFilter s l ++ if x.score = s then [x] else [] := by
  induction l with
  | nil =>
    unfold insertDesc scoreFilter
    by_cases h : x.score = s <;> simp [List.filter, h]
  | cons y ys ih =>
    rw [List.pairwise_cons] at hl
    obtain ⟨hy, hys⟩ := hl
    unfold insertDesc
    by_cases h : y.score < x.score
    · rw [if_pos h]
      by_cases hx : x.score = s
      · have hlt : ∀ a ∈ y :: ys, a.score < s := by
          intro a ha
          rcases List.mem_cons.mp ha with rfl | ha'
          · exact hx ▸ h
          · exact lt_of_le_of_lt (hy a ha') (hx ▸ h)
        have hnil : List.filter (fun r => decide (r.score = s)) (y :: ys) = [] := by
          rw [List.filter_eq_nil_iff]
          intro a ha
          simp only [decide_eq_true_eq]
          exact ne_of_lt (hlt a ha)
        unfold scoreFilter
        simp [List.filter_cons, hx, hnil]
      · unfold scoreFilter
        simp [List.filter_cons, hx]
    · rw [if_neg h]
      have ihys := ih hys
      unfold scoreFilter at ihys ⊢
      by_cases hy' : y.score = s <;>
        simp [List.filter_cons, hy', ihys]

theorem sortDesc_aux (l : List Scored) :
    ∀ acc : List Scored, acc.Pairwise (fun a b => b.score ≤ a.score) →
      (List.foldl (fun acc x => insertDesc x acc) acc l).Pairwise
          (fun a b => b.score ≤ a.score) ∧
        ∀ s : ℚ,
          scoreFilter s (List.foldl (fun acc x => insertDesc x acc) acc l) =
            scoreFilter s acc ++ scoreFilter s l := by
  induction l with
  | nil =>
    intro acc hacc
    refine ⟨hacc, ?_⟩
    intro s
    simp [scoreFilter]
  | cons x xs ih =>
    intro acc hacc
    have h1 := insertDesc_pairwise x acc hacc
    obtain ⟨hp, hf⟩ := ih (insertDesc x acc) h1
    rw [List.foldl_cons]
    refine ⟨hp, ?_⟩
    intro s
    rw [hf s, insertDesc_scoreFilter s x acc hacc, List.append_assoc]
    congr 1
    unfold scoreFilter
    rw [List.filter_cons]
    by_cases h : x.score = s <;> simp [h]

/-! ### Helper lemmas: the `findBestSeats` fold -/

/-- Invariant of the `findBestSeats` loop relative to the scored survivors
of the already-processed prefix: either no survivor has a positive score and
the state is still `(null, 0)`, or the state holds the earliest survivor of
maximal (positive) score. -/
def FBInv (sv : List Scored) (st : Option Scored × ℚ) : Prop :=
  (st.1 = none ∧ st.2 = 0 ∧ ∀ r ∈ sv, r.score ≤ 0) ∨
  (∃ r pre post, st.1 = some r ∧ st.2 = r.score ∧ 0 < r.score ∧
    sv = pre ++ r :: post ∧ (∀ x ∈ pre, x.score < r.score) ∧
    ∀ x ∈ post, x.score ≤ r.score)

theorem fbsStep_inv (prefs : Preferences) (sv : List Scored)
    (st : Option Scored × ℚ) (seatOption : Seat) (h : FBInv sv st) :
    FBInv (sv ++ (surviveScore prefs seatOption).toList)
      (fbsStep prefs st seatOption) := by
  unfold fbsStep
  cases hs : surviveScore prefs seatOption with
  | none => simpa using h
  | some r' =>
    simp only [Option.toList_some]
    rcases h with ⟨h1, h2, h3⟩ | ⟨r, pre, post, h1, h2, h3, h4, h5, h6⟩
    · by_cases hlt : st.2 < r'.score
      · rw [if_pos hlt]
        right
        rw [h2] at hlt
        refine ⟨r', sv, [], rfl, rfl, hlt, rfl, ?_, by simp⟩
        intro x hx
        exact lt_of_le_of_lt (h3 x hx) hlt
      · rw [if_neg hlt]
        left
        refine ⟨h1, h2, ?_⟩
        intro x hx
        rcases List.mem_append.mp hx with hx' | hx'
        · exact h3 x hx'
        · have hxr : x = r' := by simpa using hx'
          subst hxr
          rw [h2] at hlt
          exact not_lt.mp hlt
    · by_cases hlt : st.2 < r'.score
      · rw [if_pos hlt]
        rw [h2] at hlt
        right
        refine ⟨r', sv, [], rfl, rfl, lt_trans h3 hlt, rfl, ?_, by simp⟩
        intro x hx
        rw [h4] at hx
        rcases List.mem_append.mp hx with hx' | hx'
        · exact lt_trans (h5 x hx') hlt
        · rcases List.mem_cons.mp hx' with rfl | hx''
          · exact hlt
          · exact lt_of_le_of_lt (h6 x hx'') hlt
      · rw [if_neg hlt]
        right
        refine ⟨r, pre, post ++ [r'], h1, h2, h3, ?_, h5, ?_⟩
        · rw [h4]
          simp
        · intro x hx
          rcases List.mem_append.mp hx with hx' | hx'
          · exact h6 x hx'
          · have hxr : x = r' := by simpa using hx'
            subst hxr
            rw [h2] at hlt
            exact not_lt.mp hlt

theorem fbs_foldl_inv (prefs : Preferences) (l : List Seat) :
    ∀ (sv : List Scored) (st : Option Scored × ℚ), FBInv sv st →
      FBInv (sv ++ l.filterMap (surviveScore prefs))
        (l.foldl (fbsStep prefs) st) := by
  induction l with
  | nil =>
    intro sv st h
    simpa using h
  | cons s l ih =>
    intro sv st h
    have h1 := fbsStep_inv prefs sv st s h
    have h2 := ih _ _ h1
    rw [List.foldl_cons, List.filterMap_cons]
    cases hs : surviveScore prefs s with
    | none =>
      rw [hs] at h2
      simpa using h2
    | some r =>
      rw [hs] at h2
      simpa [List.append_assoc] using h2

theorem findBestSeats_inv (prefs : Preferences) (seats : List Seat) :
    FBInv (scoredSurvivors prefs seats)
      (seats.foldl (fbsStep prefs) (none, 0)) := by
  have h0 : FBInv [] ((none, 0) : Option Scored × ℚ) := by
    left
    exact ⟨rfl, rfl, by simp⟩
  have h := fbs_foldl_inv prefs seats [] (none, 0) h0
  simpa [scoredSurvivors] using h

theorem surviveScore_props (prefs : Preferences) (s : Seat) (r : Scored)
    (h : surviveScore prefs s = some r) :
    (prefs.location.together = true → 2 ≤ s.seats.length) ∧
    s.price * s.seats.length ≤ prefs.budget.total_max ∧
    r.seat = s ∧ r.totalCost = s.price * s.seats.length := by
  unfold surviveScore at h
  by_cases h1 : prefs.location.together = true ∧ s.seats.length < 2
  · rw [if_pos h1] at h
    exact absurd h (by simp)
  · rw [if_neg h1] at h
    by_cases h2 : s.price * s.seats.length > prefs.budget.total_max
    · rw [if_pos h2] at h
      exact absurd h (by simp)
    · rw [if_neg h2] at h
      cases hg : getSectionType s.«section» with
      | none =>
        rw [hg] at h
        exact absurd h (by simp)
      | some tier =>
        rw [hg] at h
        have hr := Option.some.inj h
        refine ⟨?_, not_lt.mp h2, ?_, ?_⟩
        · intro ht
          by_contra hlen
          exact h1 ⟨ht, by omega⟩
        · rw [← hr]
        · rw [← hr]

/-! ### The claims -/

/-- Claim C1, counterexample: with the scenario-A profile
(`togetherRequired = true`, `totalMax = 600`), the per-event recommendation
list produced by `runRecommendations` contains a one-seat listing (`scored2`)
and a listing whose total cost `700` exceeds `totalMax = 600` (`scored3`), so
the together/total-budget pre-filter is not applied to that list. -/
theorem C1_counterexample :
    profileA.location.together = true ∧
    eventBestSeats profileA exTickets = some [scored1, scored2, scored3] ∧
    scored2.seat.seats.length < 2 ∧
    scored3.totalCost > profileA.budget.total_max := by
  refine ⟨rfl, ?_, by decide, by decide⟩
  norm_num +decide [eventBestSeats, findBestSeats, fbsStep, surviveScore,
    allScored, sortDesc, insertDesc, exTickets, scoreTicket, getSectionType,
    getMSGSeatingMap, courtside, lower100s, bridge, upper200s, scoreSection,
    profileA, ticket1, ticket2, ticket3, elevationScore, scored1, scored2,
    scored3, List.filterMap_cons, List.filterMap_nil, List.foldl_cons,
    List.foldl_nil]

/-- Claim C1, amended: the togetherness and total-budget pre-filter is
applied inside `findBestSeats` (before scoring, independent of score), so the
single recommendation it returns always has at least 2 seats when
`togetherRequired` is set, and a total cost within `totalMax`; the per-event
recommendation list of `runRecommendations`, however, does not re-apply this
pre-filter. -/
theorem C1_prefilter_only_in_findBestSeats (prefs : Preferences)
    (seats : List Seat) (r : Scored)
    (h : findBestSeats prefs seats = some r) :
    (prefs.location.together = true → 2 ≤ r.seat.seats.length) ∧
    r.totalCost ≤ prefs.budget.total_max := by
  have hi := findBestSeats_inv prefs seats
  unfold findBestSeats at h
  rcases hi with ⟨h1, _, _⟩ | ⟨r0, pre, post, h1, _, _, h4, _, _⟩
  · rw [h1] at h
    exact absurd h (by simp)
  · rw [h1] at h
    have hr : r0 = r := Option.some.inj h
    subst hr
    have hmem : r0 ∈ scoredSurvivors prefs seats := by
      rw [h4]
      exact List.mem_append_right _ (List.mem_cons_self _ _)
    obtain ⟨s, _, hss⟩ := List.mem_filterMap.mp hmem
    obtain ⟨ht, htc, hseat, htcost⟩ := surviveScore_props prefs s r0 hss
    constructor
    · intro h'
      rw [hseat]
      exact ht h'
    · rw [htcost]
      exact htc

/-- Witness for C1: the pre-filter conclusions hold at the concrete batch
`exTickets`, whose best seat is `scored1`. -/
theorem C1_prefilter_witness :
    (profileA.location.together = true → 2 ≤ scored1.seat.seats.length) ∧
    scored1.totalCost ≤ profileA.budget.total_max :=
  C1_prefilter_only_in_findBestSeats profileA exTickets scored1 (by
    norm_num +decide [findBestSeats, fbsStep, surviveScore, exTickets,
      getSectionType, getMSGSeatingMap, courtside, lower100s, bridge,
      upper200s, scoreSection, profileA, ticket1, ticket2, ticket3,
      elevationScore, scored1, List.foldl_cons, List.foldl_nil])

/-- Claim C2, counterexample: section "109" is in the `lower100s` center
list, so the scenario-A listing is classified as a center section and scores
`621/4 = 155.25`, not `501/4 = 125.25` as the claim states. -/
theorem C2_counterexample :
    getSectionType seatA.«section» = some lower100s ∧
    seatA.«section» ∈ lower100s.center.getD [] ∧
    scoreSection profileA seatA.«section» seatA lower100s = 621 / 4 ∧
    (621 / 4 : ℚ) ≠ 501 / 4 := by
  refine ⟨by decide, by decide, ?_, by norm_num⟩
  norm_num +decide [scoreSection, profileA, seatA, lower100s]

/-- Claim C2, amended: the scenario-A listing is classified into the lower
tier as a center, non-corner section, and scores
`100 + 30(center) + 20(row) + (1 - 295/400)*20 = 155.25`. -/
theorem C2_scenarioA_score :
    getSectionType seatA.«section» = some lower100s ∧
    lower100s.elevation = Elevation.lower ∧
    seatA.«section» ∈ lower100s.center.getD [] ∧
    seatA.«section» ∉ lower100s.corners.getD [] ∧
    scoreSection profileA seatA.«section» seatA lower100s =
      100 + 30 + 20 + (1 - 295 / 400) * 20 := by
  refine ⟨by decide, rfl, by decide, by decide, ?_⟩
  norm_num +decide [scoreSection, profileA, seatA, lower100s]

/-- Claim C3 (code bug): under JavaScript semantics a listing with a missing
`price` passes the price gate (comparisons against `undefined` are `false`),
its score is `NaN` (`none`), and since `NaN === 0` is `false` the scheduler's
zero-score filter keeps it — it is not excluded from the ranked batch, while
a genuinely hard-rejected listing (price `450 > 400`) is excluded. -/
theorem C3_missing_price_not_excluded :
    scoreSectionJS profileA seatAJS.«section» seatAJS lower100s = none ∧
    scoreTicketJS profileA seatAJS =
      some { seat := seatAJS, score := none, totalCost := none,
             elevation := Elevation.lower } ∧
    scoreTicketJS profileA seatAJS ≠ none ∧
    scoreTicketJS profileA seat450JS = none := by
  refine ⟨?_, ?_, ?_, ?_⟩ <;>
    norm_num +decide [scoreTicketJS, scoreSectionJS, jsGtQ, jsLtQ, seatAJS,
      seat450JS, getSectionType, getMSGSeatingMap, courtside, lower100s,
      bridge, upper200s, profileA, elevationScore]

/-- Claim C4: a per-seat price strictly above `maxPerSeat` or strictly below
`minPerSeat` makes `scoreSection` return exactly `0`. -/
theorem C4_price_gate (prefs : Preferences) (sec : String) (seatInfo : Seat)
    (sectionType : SectionType)
    (h : seatInfo.price > prefs.budget.max_per_seat ∨
         seatInfo.price < prefs.budget.min_per_seat) :
    scoreSection prefs sec seatInfo sectionType = 0 := by
  unfold scoreSection
  rw [if_pos h]

/-- Witness for C4: the scenario-A listing at price `450 > 400` scores `0`. -/
theorem C4_price_gate_witness :
    seat450.price > profileA.budget.max_per_seat ∧
    scoreSection profileA seat450.«section» seat450 lower100s = 0 :=
  ⟨by decide,
   C4_price_gate profileA seat450.«section» seat450 lower100s
     (Or.inl (by decide))⟩

/-- Claim C5: a tier whose elevation rank is strictly below the profile's
`minElevation` rank always scores `0`; in particular the scenario-B bridge
listing scores `0` and is dropped by the scheduler pipeline and by
`findBestSeats`. -/
theorem C5_elevation_gate :
    (∀ (prefs : Preferences) (sec : String) (seatInfo : Seat)
        (sectionType : SectionType),
      elevationScore sectionType.elevation <
          elevationScore prefs.view.min_elevation →
        scoreSection prefs sec seatInfo sectionType = 0) ∧
    getSectionType seatB.«section» = some bridge ∧
    elevationScore bridge.elevation <
      elevationScore profileA.view.min_elevation ∧
    scoreSection profileA seatB.«section» seatB bridge = 0 ∧
    scoreTicket profileA seatB = none ∧
    findBestSeats profileA [seatB] = none := by
  refine ⟨?_, by decide, by decide, ?_, ?_, ?_⟩
  · intro prefs sec seatInfo sectionType h
    unfold scoreSection
    by_cases hp : seatInfo.price > prefs.budget.max_per_seat ∨
        seatInfo.price < prefs.budget.min_per_seat
    · rw [if_pos hp]
    · rw [if_neg hp, if_pos h]
  · norm_num [scoreSection, profileA, seatB, bridge, elevationScore]
  · norm_num +decide [scoreTicket, getSectionType, getMSGSeatingMap,
      courtside, lower100s, bridge, upper200s, scoreSection, profileA, seatB,
      elevationScore]
  · norm_num +decide [findBestSeats, fbsStep, surviveScore, getSectionType,
      getMSGSeatingMap, courtside, lower100s, bridge, upper200s, scoreSection,
      profileA, seatB, elevationScore, List.foldl_cons, List.foldl_nil]

/-- Witness for C5: the universally quantified elevation gate applied to the
concrete scenario-B listing in the bridge tier. -/
theorem C5_elevation_gate_witness :
    elevationScore bridge.elevation <
      elevationScore profileA.view.min_elevation ∧
    scoreSection profileA seatB.«section» seatB bridge = 0 :=
  ⟨by decide,
   C5_elevation_gate.1 profileA seatB.«section» seatB bridge (by decide)⟩

/-- Claim C6: for a fixed ticket batch and profile the scheduler's ranking is
deterministic, sorted by score descending, and stable: for every score value
the sub-list of that score equals, in order, the corresponding sub-list of
the unsorted scored pipeline output. -/
theorem C6_ranking_deterministic_stable (prefs : Preferences)
    (tickets : List Seat) :
    allScored prefs tickets = allScored prefs tickets ∧
    (allScored prefs tickets).Pairwise (fun a b => b.score ≤ a.score) ∧
    ∀ s : ℚ, scoreFilter s (allScored prefs tickets) =
      scoreFilter s (tickets.filterMap (scoreTicket prefs)) := by
  obtain ⟨hp, hf⟩ :=
    sortDesc_aux (tickets.filterMap (scoreTicket prefs)) [] List.Pairwise.nil
  refine ⟨rfl, ?_, ?_⟩
  · simpa [allScored, sortDesc] using hp
  · intro s
    have h := hf s
    simpa [allScored, sortDesc, scoreFilter] using h

/-- Claim C7: the internal per-event ranking keeps at most 5
recommendations (`allScored.slice(0, 5)`), and the email rendering displays
at most 3 (`bestSeats.slice(0, 3)`). -/
theorem C7_truncation_limits :
    (∀ (prefs : Preferences) (tickets : List Seat) (l : List Scored),
        eventBestSeats prefs tickets = some l → l.length ≤ 5) ∧
    ∀ bestSeats : List Scored, (emailTopSeats bestSeats).length ≤ 3 := by
  constructor
  · intro prefs tickets l h
    unfold eventBestSeats at h
    cases hb : findBestSeats prefs tickets with
    | none =>
      rw [hb] at h
      exact absurd h (by simp)
    | some r =>
      rw [hb] at h
      dsimp only at h
      by_cases hl : 0 < (allScored prefs tickets).length
      · rw [if_pos hl] at h
        have hinj := Option.some.inj h
        rw [← hinj]
        exact List.length_take_le 5 (allScored prefs tickets)
      · rw [if_neg hl] at h
        exact absurd h (by simp)
  · intro bestSeats
    unfold emailTopSeats
    exact List.length_take_le 3 bestSeats

/-- Witness for C7: the concrete batch `exTickets` yields a 3-element
recommendation list, within both limits. -/
theorem C7_truncation_limits_witness :
    ([scored1, scored2, scored3] : List Scored).length ≤ 5 ∧
    (emailTopSeats [scored1, scored2, scored3]).length ≤ 3 :=
  ⟨C7_truncation_limits.1 profileA exTickets [scored1, scored2, scored3] (by
      norm_num +decide [eventBestSeats, findBestSeats, fbsStep, surviveScore,
        allScored, sortDesc, insertDesc, exTickets, scoreTicket,
        getSectionType, getMSGSeatingMap, courtside, lower100s, bridge,
        upper200s, scoreSection, profileA, ticket1, ticket2, ticket3,
        elevationScore, scored1, scored2, scored3, List.filterMap_cons,
        List.filterMap_nil, List.foldl_cons, List.foldl_nil]),
   C7_truncation_limits.2 [scored1, scored2, scored3]⟩

/-- Claim C8: for a base excitement in `[1, 10]`, the adjusted excitement is
`min(base + 1, 10)` for a preferred opponent and `base` otherwise, it never
exceeds `10` (and stays at least `1`), and re-running the rater on a rated
game's stored data returns the same rating (the boost is computed from the
stored base, so it cannot compound). -/
theorem C8_excitement_boost (opponentInfo : Option TeamInfo)
    (isPreferred : Bool)
    (h1 : 1 ≤ baseExcitement opponentInfo)
    (h10 : baseExcitement opponentInfo ≤ 10) :
    (rateGame opponentInfo isPreferred).excitement =
      (if isPreferred = true then min (baseExcitement opponentInfo + 1) 10
       else baseExcitement opponentInfo) ∧
    (rateGame opponentInfo isPreferred).excitement ≤ 10 ∧
    1 ≤ (rateGame opponentInfo isPreferred).excitement ∧
    reRate (rateGame opponentInfo isPreferred) =
      rateGame opponentInfo isPreferred := by
  refine ⟨rfl, ?_, ?_, rfl⟩
  · unfold rateGame
    dsimp only
    by_cases hp : isPreferred = true
    · rw [if_pos hp]
      exact min_le_right _ _
    · rw [if_neg hp]
      exact h10
  · unfold rateGame
    dsimp only
    by_cases hp : isPreferred = true
    · rw [if_pos hp]
      exact le_min (by omega) (by norm_num)
    · rw [if_neg hp]
      exact h1

/-- Witness for C8: a preferred opponent with base excitement `10` is capped
at `10`. -/
theorem C8_excitement_boost_witness :
    1 ≤ baseExcitement (some ⟨some 10⟩) ∧
    baseExcitement (some ⟨some 10⟩) ≤ 10 ∧
    ((rateGame (some ⟨some 10⟩) true).excitement =
      (if (true : Bool) = true then min (baseExcitement (some ⟨some 10⟩) + 1) 10
       else baseExcitement (some ⟨some 10⟩)) ∧
    (rateGame (some ⟨some 10⟩) true).excitement ≤ 10 ∧
    1 ≤ (rateGame (some ⟨some 10⟩) true).excitement ∧
    reRate (rateGame (some ⟨some 10⟩) true) = rateGame (some ⟨some 10⟩) true) :=
  ⟨by decide, by decide,
   C8_excitement_boost (some ⟨some 10⟩) true (by decide) (by decide)⟩

/-- Claim C9: an opponent with no external team data gets base excitement
`5`; unpreferred, its adjusted excitement is `5` and it lands in the
"standard" band of `logSummary` (`excitement < 6`). -/
theorem C9_missing_data_neutral :
    baseExcitement none = 5 ∧
    rateGame none false =
      { excitement := 5, isPreferred := false, opponentInfo := none } ∧
    standardGames [rateGame none false] = [rateGame none false] := by
  refine ⟨rfl, rfl, ?_⟩
  decide

/-- Claim C10: `findBestSeats` returns `null` exactly when no listing that
survives its pre-filters and tier scan attains a strictly positive score;
when it returns a recommendation, that recommendation has positive score,
is maximal among the scored survivors, and is the earliest survivor of that
maximal score (every earlier survivor scores strictly less). -/
theorem C10_findBestSeats_characterization (prefs : Preferences)
    (seats : List Seat) :
    (findBestSeats prefs seats = none ↔
      ∀ r ∈ scoredSurvivors prefs seats, r.score ≤ 0) ∧
    ∀ r, findBestSeats prefs seats = some r →
      0 < r.score ∧
      ∃ pre post, scoredSurvivors prefs seats = pre ++ r :: post ∧
        (∀ x ∈ pre, x.score < r.score) ∧ ∀ x ∈ post, x.score ≤ r.score := by
  have hi := findBestSeats_inv prefs seats
  unfold findBestSeats
  rcases hi with ⟨h1, _, h3⟩ | ⟨r0, pre, post, h1, _, h3, h4, h5, h6⟩
  · constructor
    · rw [h1]
      exact ⟨fun _ => h3, fun _ => rfl⟩
    · intro r hr
      rw [h1] at hr
      exact absurd hr (by simp)
  · constructor
    · rw [h1]
      constructor
      · intro hcon
        exact absurd hcon (by simp)
      · intro hall
        have hmem : r0 ∈ scoredSurvivors prefs seats := by
          rw [h4]
          exact List.mem_append_right _ (List.mem_cons_self _ _)
        exact absurd h3 (not_lt.mpr (hall r0 hmem))
    · intro r hr
      rw [h1] at hr
      have hr0 : r0 = r := Option.some.inj hr
      subst hr0
      exact ⟨h3, pre, post, h4, h5, h6⟩

/-- Witness for C10: at the concrete batch `exTickets` the returned best
seat `scored1` has positive score and heads a maximal-score decomposition of
the scored survivors. -/
theorem C10_findBestSeats_witness :
    0 < scored1.score ∧
    ∃ pre post, scoredSurvivors profileA exTickets = pre ++ scored1 :: post ∧
      (∀ x ∈ pre, x.score < scored1.score) ∧
      ∀ x ∈ post, x.score ≤ scored1.score :=
  (C10_findBestSeats_characterization profileA exTickets).2 scored1 (by
    norm_num +decide [findBestSeats, fbsStep, surviveScore, exTickets,
      getSectionType, getMSGSeatingMap, courtside, lower100s, bridge,
      upper200s, scoreSection, profileA, ticket1, ticket2, ticket3,
      elevationScore, scored1, List.foldl_cons, List.foldl_nil])
